import Mathlib

/-
Verification of the rangeland_production monthly biophysical simulation
engine against its natural-language specification.

The point-process functions verified here are shallowly embedded from the
repository sources:
  * `esched_point._esched`, `declig_point._declig`, `defac_point`,
    `calc_nutrient_limitation_point` and `potential_transpiration_point`
    are transcribed from `tests/test_forage.py`;
  * the algorithm check of `execute` is transcribed from
    `src/natcap/invest/routedem.py`.
Exact machine-checkable arithmetic is used throughout: Python floats are
modelled by rationals (`ℚ`) where the code is algebraic, and by real
numbers (`ℝ`) where the code calls transcendental functions
(`math.exp`, `numpy.arctan`).  Fallible code (Python raising
`ZeroDivisionError`) is modelled with `Option`.
-/

/-! ### Element scheduling: `esched_point._esched` (tests/test_forage.py) -/

/-- The three outputs of `_esched`: the Python closure returns one of them
selected by the `return_type` string; they are computed jointly, so the
embedding returns all three. -/
structure EschedResult where
  material_leaving_a : ℚ
  material_arriving_b : ℚ
  mineral_flow : ℚ
deriving DecidableEq

/-- Transcription of `esched_point._esched` (tests/test_forage.py).
`cflow` C decomposes from box A (C content `tca`, element content `anps`)
to box B at required C/element ratio `rcetob`; `labile` is the mineral
element pool. -/
def esched (cflow tca rcetob anps labile : ℚ) : EschedResult :=
  let outofa := anps * (cflow / tca)
  if cflow / outofa > rcetob then
    -- immobilization occurs
    let immflo := cflow / rcetob - outofa
    if labile - immflo > 0 then
      ⟨outofa, outofa + immflo, -immflo⟩
    else
      -- no flow from box A to B, nothing moves
      ⟨0, 0, 0⟩
  else
    -- mineralization
    let atob := cflow / rcetob
    ⟨outofa, atob, outofa - atob⟩

/-- Refinement of `esched` that models Python's evaluation order and its
`ZeroDivisionError`: each division performed by `_esched` is checked in
the order the Python code reaches it, and a zero denominator yields
`none`. -/
def eschedChecked (cflow tca rcetob anps labile : ℚ) : Option EschedResult :=
  if tca = 0 then none else
  let outofa := anps * (cflow / tca)
  if outofa = 0 then none else
  if cflow / outofa > rcetob then
    if rcetob = 0 then none else
    let immflo := cflow / rcetob - outofa
    if labile - immflo > 0 then
      some ⟨outofa, outofa + immflo, -immflo⟩
    else
      some ⟨0, 0, 0⟩
  else
    if rcetob = 0 then none else
    let atob := cflow / rcetob
    some ⟨outofa, atob, outofa - atob⟩

/-! ### Lignin-gated structural decomposition: `declig_point._declig` -/

/-- The twelve state-variable deltas returned by `_declig`, one per
`return_type` string of the Python closure. -/
structure DecligResult where
  d_strucc : ℚ
  d_struce_1 : ℚ
  d_struce_2 : ℚ
  d_minerl_1_1 : ℚ
  d_minerl_1_2 : ℚ
  d_gromin_1 : ℚ
  d_som2c : ℚ
  d_som2e_1 : ℚ
  d_som2e_2 : ℚ
  d_som1c : ℚ
  d_som1e_1 : ℚ
  d_som1e_2 : ℚ
deriving DecidableEq

/-- The all-zero delta record: the initialization of `_declig` before any
flow is scheduled. -/
def DecligResult.zero : DecligResult := ⟨0, 0, 0, 0, 0, 0, 0, 0, 0, 0, 0, 0⟩

/-- The `decompose_mask` condition of `_declig` (tests/test_forage.py):
for each nutrient (N with index 1, P with index 2), either the averaged
available mineral exceeds 1e-7 or the donating pool's C/element ratio is
at or below the required ratio for decomposition to SOM1. -/
def decompose_mask (aminrl_1 aminrl_2 strucc_lyr struce_lyr_1 struce_lyr_2
    rnew_lyr_1_1 rnew_lyr_2_1 : ℚ) : Prop :=
  (aminrl_1 > 0.0000001 ∨ strucc_lyr / struce_lyr_1 ≤ rnew_lyr_1_1) ∧
  (aminrl_2 > 0.0000001 ∨ strucc_lyr / struce_lyr_2 ≤ rnew_lyr_2_1)

instance (a b c d e f g : ℚ) : Decidable (decompose_mask a b c d e f g) := by
  unfold decompose_mask; infer_instance

/-- Transcription of `declig_point._declig` (tests/test_forage.py):
decomposition of structural material containing lignin into SOM2 and
SOM1, with element flows via `esched` and respiration-associated
mineral flows.  The sequential `+=`/`-=` updates of the Python code are
accumulated per field. -/
def declig (aminrl_1 aminrl_2 ligcon rsplig ps1co2_lyr strucc_lyr tcflow
    struce_lyr_1 struce_lyr_2 rnew_lyr_1_1 rnew_lyr_2_1 rnew_lyr_1_2
    rnew_lyr_2_2 minerl_1_1 minerl_1_2 : ℚ) : DecligResult :=
  if decompose_mask aminrl_1 aminrl_2 strucc_lyr struce_lyr_1 struce_lyr_2
      rnew_lyr_1_1 rnew_lyr_2_1 then
    -- material decomposes first to som2
    let tosom2 := tcflow * ligcon
    -- respiration associated with decomposition to som2
    let co2los_2 := tosom2 * rsplig
    let mnrflo2_1 := co2los_2 * struce_lyr_1 / strucc_lyr
    let mnrflo2_2 := co2los_2 * struce_lyr_2 / strucc_lyr
    let net_tosom2 := tosom2 - co2los_2
    -- N and P flows from struce_lyr to som2e_lyr
    let es2n := esched net_tosom2 strucc_lyr rnew_lyr_1_2 struce_lyr_1 minerl_1_1
    let es2p := esched net_tosom2 strucc_lyr rnew_lyr_2_2 struce_lyr_2 minerl_1_2
    -- what is left decomposes to som1
    let tosom1 := tcflow - tosom2
    let co2los_1 := tosom1 * ps1co2_lyr
    let mnrflo1_1 := co2los_1 * struce_lyr_1 / strucc_lyr
    let mnrflo1_2 := co2los_1 * struce_lyr_2 / strucc_lyr
    let net_tosom1 := tosom1 - co2los_1
    -- N and P flows from struce_lyr to som1e_lyr
    let es1n := esched net_tosom1 strucc_lyr rnew_lyr_1_1 struce_lyr_1 minerl_1_1
    let es1p := esched net_tosom1 strucc_lyr rnew_lyr_2_1 struce_lyr_2 minerl_1_2
    { d_strucc := -tcflow
      d_struce_1 := -mnrflo2_1 - es2n.material_leaving_a
        - mnrflo1_1 - es1n.material_leaving_a
      d_struce_2 := -mnrflo2_2 - es2p.material_leaving_a
        - mnrflo1_2 - es1p.material_leaving_a
      d_minerl_1_1 := mnrflo2_1 + es2n.mineral_flow
        + mnrflo1_1 + es1n.mineral_flow
      d_minerl_1_2 := mnrflo2_2 + es2p.mineral_flow
        + mnrflo1_2 + es1p.mineral_flow
      d_gromin_1 := (if mnrflo2_1 > 0 then mnrflo2_1 else 0)
        + (if es2n.mineral_flow > 0 then es2n.mineral_flow else 0)
        + (if mnrflo1_1 > 0 then mnrflo1_1 else 0)
        + (if es1n.mineral_flow > 0 then es1n.mineral_flow else 0)
      d_som2c := net_tosom2
      d_som2e_1 := es2n.material_arriving_b
      d_som2e_2 := es2p.material_arriving_b
      d_som1c := net_tosom1
      d_som1e_1 := es1n.material_arriving_b
      d_som1e_2 := es1p.material_arriving_b }
  else
    DecligResult.zero

/-! ### Nutrient limitation: `calc_nutrient_limitation_point` -/

/-- Outputs of `calc_nutrient_limitation_point` (tests/test_forage.py).
The first six fields are the keys of the Python result dictionary; the
last three expose local variables of the same computation (`cpbe_1`,
`cpbe_2`, and the capped `eprodl_1`) that the specification speaks
about. -/
structure NutrlmResult where
  c_production : ℚ
  eup_above_1 : ℚ
  eup_below_1 : ℚ
  eup_above_2 : ℚ
  eup_below_2 : ℚ
  plantNfix : ℚ
  cpbe_1 : ℚ
  cpbe_2 : ℚ
  eprodl_1 : ℚ
deriving DecidableEq

/-- Transcription of `calc_nutrient_limitation_point`
(tests/test_forage.py, `Nutrlm.f`): C, N and P in new production given
nutrient availability. -/
def calc_nutrient_limitation_point (potenc rtsh eavail_1 eavail_2 snfxmx_1
    cerat_max_above_1 cerat_max_below_1 cerat_max_above_2 cerat_max_below_2
    cerat_min_above_1 cerat_min_below_1 cerat_min_above_2 cerat_min_below_2 :
    ℚ) : NutrlmResult :=
  let cfrac_below := rtsh / (rtsh + 1)
  let cfrac_above := 1 - cfrac_below
  -- min/max eci is indexed to aboveground only or belowground only
  let maxeci_above_1 := 1 / cerat_min_above_1
  let mineci_above_1 := 1 / cerat_max_above_1
  let maxeci_below_1 := 1 / cerat_min_below_1
  let mineci_below_1 := 1 / cerat_max_below_1
  let maxeci_above_2 := 1 / cerat_min_above_2
  let mineci_above_2 := 1 / cerat_max_above_2
  let maxeci_below_2 := 1 / cerat_min_below_2
  let mineci_below_2 := 1 / cerat_max_below_2
  -- maxec is average e/c ratio across aboveground and belowground
  let maxec_1 := cfrac_below * maxeci_below_1 + cfrac_above * maxeci_above_1
  let maxec_2 := cfrac_below * maxeci_below_2 + cfrac_above * maxeci_above_2
  -- cpbe_1, N/C ratio according to demand and supply
  let demand_1 := potenc * maxec_1
  let ecfor_above_1 := if eavail_1 > demand_1 then maxeci_above_1 else
    mineci_above_1 + (maxeci_above_1 - mineci_above_1) * eavail_1 / demand_1
  let ecfor_below_1 := if eavail_1 > demand_1 then maxeci_below_1 else
    mineci_below_1 + (maxeci_below_1 - mineci_below_1) * eavail_1 / demand_1
  let cpbe_1 := cfrac_below * ecfor_below_1 + cfrac_above * ecfor_above_1
  let c_constrained_1 := eavail_1 / cpbe_1
  -- cpbe_2, P/C ratio according to demand and supply
  let demand_2 := potenc * maxec_2
  let ecfor_above_2 := if eavail_2 > demand_2 then maxeci_above_2 else
    mineci_above_2 + (maxeci_above_2 - mineci_above_2) * eavail_2 / demand_2
  let ecfor_below_2 := if eavail_2 > demand_2 then maxeci_below_2 else
    mineci_below_2 + (maxeci_below_2 - mineci_below_2) * eavail_2 / demand_2
  let cpbe_2 := cfrac_below * ecfor_below_2 + cfrac_above * ecfor_above_2
  let c_constrained_2 := eavail_2 / cpbe_2
  -- C production limited by nutrient availability
  let cprodl := min (min potenc c_constrained_1) c_constrained_2
  let eup_above_1 := cprodl * cfrac_above * ecfor_above_1
  let eup_below_1 := cprodl * cfrac_below * ecfor_below_1
  let eup_above_2 := cprodl * cfrac_above * ecfor_above_2
  let eup_below_2 := cprodl * cfrac_below * ecfor_below_2
  -- "prevent precision error", line 235 Nutrlm.f
  let maxNfix := snfxmx_1 * cprodl
  let eprodl_1 := if eup_above_1 + eup_below_1 - (eavail_1 + maxNfix) > 0.05
    then eavail_1 + maxNfix else eup_above_1 + eup_below_1
  let plantNfix := max (eprodl_1 - eavail_1) 0
  { c_production := cprodl
    eup_above_1 := eup_above_1
    eup_below_1 := eup_below_1
    eup_above_2 := eup_above_2
    eup_below_2 := eup_below_2
    plantNfix := plantNfix
    cpbe_1 := cpbe_1
    cpbe_2 := cpbe_2
    eprodl_1 := eprodl_1 }

/-! ### Gross mineralization accumulator -/

/-- Modelled from the spec: the grid function
`update_gross_mineralization` of `rangeland_production/forage.py` is not
part of this repository snapshot (only its test,
`test_update_gross_mineralization`, is).  Per the spec it returns
`g + flow` if `flow > 0`, else returns `g` unchanged. -/
def update_gross_mineralization (g flow : ℚ) : ℚ :=
  if flow > 0 then g + flow else g

/-! ### Leaching intensity and leached C -/

/-- Modelled from the spec: the grid function `calc_c_leach` of
`rangeland_production/forage.py` is not part of this repository snapshot
(only its test, `test_calc_c_leach`, is).  Per the spec the leaching
intensity is the ratio of layer percolation `amov` to the
leaching-threshold parameter `omlech_3`, clipped to [0, 1]. -/
def linten (amov omlech_3 : ℚ) : ℚ :=
  min (max (amov / omlech_3) 0) 1

/-- Modelled from the spec: leached C is the C flow times the organic
leaching parameter times the clipped leaching intensity. -/
def calc_c_leach (amov tcflow omlech_3 orglch : ℚ) : ℚ :=
  tcflow * orglch * linten amov omlech_3

/-! ### Grazing-effect regime 1 -/

/-- Modelled from the spec: the grid function
`grazing_effect_on_aboveground_production` of
`rangeland_production/forage.py` is not part of this repository snapshot
(only its test, `test_grazing_effect`, is).  Regime `grzeff = 1` applies
a linear reduction `(1 - 2.21 * flgrem)` to the aboveground share
`tgprod * (1 - fracrc)` of total potential production, reproducing the
test's hand-calculated value; the remaining five regimes are not pinned
down by the spec and are modelled as leaving aboveground production
unchanged. -/
def grazing_effect_on_aboveground_production (tgprod fracrc flgrem : ℚ)
    (grzeff : ℤ) : ℚ :=
  if grzeff = 1 then tgprod * (1 - fracrc) * (1 - 2.21 * flgrem)
  else tgprod * (1 - fracrc)

/-- Modelled from the spec: the grid function
`grazing_effect_on_root_shoot` of `rangeland_production/forage.py` is
not part of this repository snapshot (only its test is).  Under regime
`grzeff = 1` the root:shoot ratio is the ungrazed
`fracrc / (1 - fracrc)`, reproducing the test's hand-calculated value;
`flgrem` and `gremb` enter only in regimes not pinned down by the spec,
modelled here as the same ungrazed ratio. -/
def grazing_effect_on_root_shoot (fracrc flgrem : ℚ) (grzeff : ℤ)
    (gremb : ℚ) : ℚ :=
  if grzeff = 1 then fracrc / (1 - fracrc)
  else fracrc / (1 - fracrc)

/-! ### Decomposition factor: `defac_point` (tests/test_forage.py) -/

/-- The effect of soil moisture on decomposition (`agwfunc` in
`defac_point`): 1 when the precipitation-to-PET ratio exceeds 9, else a
logistic curve in `rprpet`. -/
noncomputable def agwfunc (rprpet : ℝ) : ℝ :=
  if rprpet > 9 then 1 else 1 / (1 + 30 * Real.exp (-8.5 * rprpet))

/-- Soil temperature used by `defac_point`: 0 under standing snow, else
the mean of the monthly minimum and maximum temperatures. -/
noncomputable def soil_stemp (snow min_temp max_temp : ℝ) : ℝ :=
  if snow > 0 then 0 else (min_temp + max_temp) / 2

/-- The un-normalized temperature response of `defac_point` as a function
of soil temperature: `teff_2 + (teff_3/pi) * arctan(pi * teff_4 *
(stemp - teff_1))`.  `defac_point` divides its value at `stemp` by its
value at 30 degrees. -/
noncomputable def tfunc_num (stemp teff_1 teff_2 teff_3 teff_4 : ℝ) : ℝ :=
  teff_2 + (teff_3 / Real.pi) * Real.arctan (Real.pi * teff_4 * (stemp - teff_1))

/-- Transcription of `defac_point` (tests/test_forage.py): the combined
temperature/moisture decomposition factor, `Cycle.f` lines 151-200. -/
noncomputable def defac_point (snow min_temp max_temp rprpet teff_1 teff_2
    teff_3 teff_4 : ℝ) : ℝ :=
  let stemp := soil_stemp snow min_temp max_temp
  let tfunc := max 0.01
    (tfunc_num stemp teff_1 teff_2 teff_3 teff_4 /
     tfunc_num 30 teff_1 teff_2 teff_3 teff_4)
  max 0 (tfunc * agwfunc rprpet)

/-! ### Potential transpiration: `potential_transpiration_point` -/

/-- The outputs of `potential_transpiration_point`
(tests/test_forage.py, nested in `test_calc_potential_transpiration`). -/
structure TranspirationResult where
  trap : ℝ
  pevp : ℝ
  modified_moisture_inputs : ℝ

/-- The water/biomass transpiration demand curve of
`potential_transpiration_point` (`pttr`): zero below 2 degrees C, else an
exponential saturation curve of live biomass scaled by remaining PET. -/
noncomputable def pttr_curve (pet_rem tave aliv : ℝ) : ℝ :=
  if tave < 2 then 0 else pet_rem * 0.65 * (1 - Real.exp (-0.02 * aliv))

/-- The transpiration demand after the caps of
`potential_transpiration_point`: the demand curve is capped by remaining
PET net of surface evaporation, and floored at 0.01. -/
noncomputable def capped_trap (pet_rem evap_losses tave aliv : ℝ) : ℝ :=
  let trap := pet_rem - evap_losses
  let pttr := pttr_curve pet_rem tave aliv
  let trap := if pttr ≤ trap then pttr else trap
  if trap ≤ 0 then 0.01 else trap

/-- Transcription of `potential_transpiration_point`
(tests/test_forage.py): potential transpiration `trap`, potential soil
surface evaporation `pevp`, and moisture inputs after the demand is
pre-satisfied from the current surface input. -/
noncomputable def potential_transpiration_point (pet_rem evap_losses tave
    aliv current_moisture_inputs : ℝ) : TranspirationResult :=
  let trap := capped_trap pet_rem evap_losses tave aliv
  let pevp := max (pet_rem - trap - evap_losses) 0
  let tran := min (trap - 0.01) current_moisture_inputs
  { trap := trap - tran
    pevp := pevp
    modified_moisture_inputs := current_moisture_inputs - tran }

/-! ### RouteDEM algorithm validation (src/natcap/invest/routedem.py) -/

/-- ASCII upper-casing of a character, as Python's `str.upper` performs
on the ASCII algorithm names used by RouteDEM. -/
def upperChar (c : Char) : Char :=
  if 'a' ≤ c ∧ c ≤ 'z' then Char.ofNat (c.toNat - 32) else c

/-- ASCII upper-casing of a string, modelling `args['algorithm'].upper()`
in `routedem.execute`. -/
def upperString (s : String) : String :=
  String.mk (s.data.map upperChar)

/-- The keys of the `_ROUTING_FUNCS` dictionary in `routedem.py`. -/
def routingAlgorithms : List String := ["D8", "MFD"]

/-- Outcome of `routedem.execute`: either a failure message raised as a
`RuntimeError` before any task is scheduled, or the names of the tasks
handed to the task graph (in scheduling order). -/
structure RouteDemResult where
  scheduled : List String
  error : Option String
deriving DecidableEq

/-- Transcription of the control flow of `routedem.execute`
(src/natcap/invest/routedem.py): the algorithm name is upper-cased and
looked up in `_ROUTING_FUNCS` before the task graph is created; a failed
lookup raises `RuntimeError('Invalid algorithm specified (%s). Must be
one of %s')` with the sorted valid keys, so no task is ever scheduled.
On success tasks are scheduled in source order, gated by the boolean
`calculate_*` args. -/
def routedem_execute (algorithm : String) (calculate_slope
    calculate_flow_accumulation calculate_stream_threshold
    calculate_downstream_distance : Bool) : RouteDemResult :=
  let upper := upperString algorithm
  if routingAlgorithms.contains upper then
    let slope_tasks := if calculate_slope then ["calculate_slope"] else []
    let stream_tasks :=
      if calculate_stream_threshold then
        (if upper = "D8" then ["stream_thresholding_D8"]
         else ["stream_extraction_MFD"]) ++
        (if calculate_downstream_distance
         then ["downstream_distance_" ++ upper] else [])
      else []
    let accum_tasks :=
      if calculate_flow_accumulation
      then ("flow_accumulation_" ++ upper) :: stream_tasks else []
    { scheduled := slope_tasks ++ ["fill_pits", "flow_dir_" ++ upper]
        ++ accum_tasks
      error := none }
  else
    { scheduled := []
      error := some ("Invalid algorithm specified (" ++ algorithm ++
        "). Must be one of D8, MFD") }

/-! ## Theorems -/

/-- Helper: one `update_gross_mineralization` step never decreases the
accumulator. -/
theorem update_gross_mineralization_le (g flow : ℚ) :
    g ≤ update_gross_mineralization g flow := by
  unfold update_gross_mineralization
  split_ifs with h
  · linarith
  · exact le_refl g

/-- Helper: the accumulator is non-decreasing under any sequence of
`update_gross_mineralization` steps. -/
theorem le_foldl_update_gross_mineralization (flows : List ℚ) (g : ℚ) :
    g ≤ List.foldl update_gross_mineralization g flows := by
  induction flows generalizing g with
  | nil => exact le_refl g
  | cons f t ih =>
    exact le_trans (update_gross_mineralization_le g f) (ih _)

/-- C4: `update_gross_mineralization(g, flow)` returns `g + flow` when
`flow > 0` and returns `g` unchanged when `flow <= 0`; consequently the
gross mineralization accumulator is non-decreasing under any sequence of
updates. -/
theorem update_gross_mineralization_spec (g flow : ℚ) :
    (flow > 0 → update_gross_mineralization g flow = g + flow) ∧
    (flow ≤ 0 → update_gross_mineralization g flow = g) ∧
    ∀ flows : List ℚ, g ≤ List.foldl update_gross_mineralization g flows := by
  refine ⟨fun h => ?_, fun h => ?_, fun flows => ?_⟩
  · unfold update_gross_mineralization
    exact if_pos h
  · unfold update_gross_mineralization
    exact if_neg (by linarith)
  · exact le_foldl_update_gross_mineralization flows g

/-- Witness for C4, at the known values of
`test_update_gross_mineralization` (`g = 0.0481, flow = 0.00044` and
`g = 0.048881, flow = -0.00674`). -/
theorem update_gross_mineralization_spec_witness :
    update_gross_mineralization (481/10000) (11/25000)
      = 481/10000 + 11/25000 ∧
    update_gross_mineralization (48881/1000000) (-337/50000)
      = 48881/1000000 :=
  ⟨(update_gross_mineralization_spec (481/10000) (11/25000)).1
     (by norm_num),
   (update_gross_mineralization_spec (48881/1000000) (-337/50000)).2.1
     (by norm_num)⟩

/-- C6: for a non-negative layer percolation `amov` and positive
leaching threshold `omlech_3`, the leaching intensity `linten` is
clamped to `[0, 1]`, leached C equals
`tcflow * orglch * min(amov/omlech_3, 1)`, and a layer with `amov == 0`
has leaching intensity 0 (no leaching from that layer). -/
theorem calc_c_leach_spec (amov tcflow omlech_3 orglch : ℚ)
    (h1 : 0 ≤ amov) (h2 : 0 < omlech_3) :
    0 ≤ linten amov omlech_3 ∧ linten amov omlech_3 ≤ 1 ∧
    calc_c_leach amov tcflow omlech_3 orglch
      = tcflow * orglch * min (amov / omlech_3) 1 ∧
    linten 0 omlech_3 = 0 := by
  have hq : 0 ≤ amov / omlech_3 := div_nonneg h1 h2.le
  refine ⟨?_, ?_, ?_, ?_⟩
  · exact le_min (le_max_right _ _) zero_le_one
  · exact min_le_right _ _
  · unfold calc_c_leach linten
    rw [max_eq_left hq]
  · unfold linten
    norm_num

/-- Witness for C6, at the known values of `test_calc_c_leach`
(`amov = 10.5, tcflow = 40.38, omlech_3 = 60, orglch = 0.07`). -/
theorem calc_c_leach_spec_witness :
    (0:ℚ) ≤ 21/2 ∧ (0:ℚ) < 60 ∧
    calc_c_leach (21/2) (2019/50) 60 (7/100)
      = 2019/50 * (7/100) * min ((21/2) / 60) 1 :=
  ⟨by norm_num, by norm_num,
   (calc_c_leach_spec (21/2) (2019/50) 60 (7/100)
     (by norm_num) (by norm_num)).2.2.1⟩

/-- Grounding of the spec-modelled `calc_c_leach` against the known
value of `test_calc_c_leach` with `linten > 1` clamped
(`amov = 63.1` gives `cleach = 2.8266`). -/
theorem calc_c_leach_known_value_clamped :
    calc_c_leach (631/10) (2019/50) 60 (7/100) = 14133/5000 := by
  unfold calc_c_leach linten
  norm_num [min_def, max_def]

/-- Grounding of the spec-modelled `calc_c_leach` against the known
value of `test_calc_c_leach` with `linten < 1`
(`amov = 10.5` gives `cleach = 0.494655`). -/
theorem calc_c_leach_known_value_partial :
    calc_c_leach (21/2) (2019/50) 60 (7/100) = 98931/200000 := by
  unfold calc_c_leach linten
  norm_num [min_def, max_def]

/-- C9: the grazing-effect functions at regime `grzeff = 1` on
`tgprod = 500, fracrc = 0.62, flgrem = 0.16, gremb = 0.02` return
aboveground production within 0.0001 of 122.816 and root:shoot ratio
within 0.0001 of 1.63158. -/
theorem grazing_effect_grzeff_1_known_values :
    |grazing_effect_on_aboveground_production 500 (62/100) (16/100) 1
      - 122816/1000| ≤ 1/10000 ∧
    |grazing_effect_on_root_shoot (62/100) (16/100) 1 (2/100)
      - 163158/100000| ≤ 1/10000 := by
  unfold grazing_effect_on_aboveground_production grazing_effect_on_root_shoot
  constructor
  · rw [if_pos rfl, abs_le]
    constructor <;> norm_num
  · rw [if_pos rfl, abs_le]
    constructor <;> norm_num

/-- C10 (amended): any input with `tca = 0`, `anps = 0` or `rcetob = 0`
makes `_esched` divide by zero; and the computation is total (no
division by zero is reachable) under the precondition `cflow > 0`,
`tca > 0`, `anps > 0`, `rcetob > 0` — strict positivity of `cflow` is
required, since `cflow = 0` makes `outofa = 0` and the very next step
divides `cflow` by `outofa`. -/
theorem esched_checked_domain (cflow tca rcetob anps labile : ℚ) :
    (tca = 0 ∨ anps = 0 ∨ rcetob = 0 →
      eschedChecked cflow tca rcetob anps labile = none) ∧
    (0 < cflow → 0 < tca → 0 < anps → 0 < rcetob →
      (eschedChecked cflow tca rcetob anps labile).isSome = true) := by
  constructor
  · rintro (h | h | h)
    · simp [eschedChecked, h]
    · by_cases ht : tca = 0 <;> simp [eschedChecked, ht, h]
    · simp only [eschedChecked]
      split_ifs <;> simp_all
  · intro h1 h2 h3 h4
    have houtofa : anps * (cflow / tca) ≠ 0 :=
      ne_of_gt (mul_pos h3 (div_pos h1 h2))
    simp only [eschedChecked]
    split_ifs <;> simp_all [ne_of_gt h2, ne_of_gt h4]

/-- Witness for C10: with `tca = 0` the computation fails, and with the
(amended) precondition satisfied it succeeds. -/
theorem esched_checked_domain_witness :
    eschedChecked 5 0 1 1 1 = none ∧
    (eschedChecked 5 1 1 1 1).isSome = true :=
  ⟨(esched_checked_domain 5 0 1 1 1).1 (Or.inl rfl),
   (esched_checked_domain 5 1 1 1 1).2 (by norm_num) (by norm_num)
     (by norm_num) (by norm_num)⟩

/-- Counterexample for C10 as stated: `cflow = 0` satisfies the claimed
precondition (`cflow >= 0`, `tca, anps, rcetob > 0`: here
`tca = anps = rcetob = labile = 1`) yet `_esched` divides by zero —
`outofa = 0` and the next step computes `cflow / outofa`. -/
theorem esched_checked_cflow_zero_counterexample :
    eschedChecked 0 1 1 1 1 = none := by
  simp [eschedChecked]

/-- C2: `_declig` moves no material when its `decompose_mask` is false:
all twelve output deltas are the initialization zeros. -/
theorem declig_no_flow_when_mask_fails (aminrl_1 aminrl_2 ligcon rsplig
    ps1co2_lyr strucc_lyr tcflow struce_lyr_1 struce_lyr_2 rnew_lyr_1_1
    rnew_lyr_2_1 rnew_lyr_1_2 rnew_lyr_2_2 minerl_1_1 minerl_1_2 : ℚ)
    (hm : ¬ decompose_mask aminrl_1 aminrl_2 strucc_lyr struce_lyr_1
      struce_lyr_2 rnew_lyr_1_1 rnew_lyr_2_1) :
    declig aminrl_1 aminrl_2 ligcon rsplig ps1co2_lyr strucc_lyr tcflow
      struce_lyr_1 struce_lyr_2 rnew_lyr_1_1 rnew_lyr_2_1 rnew_lyr_1_2
      rnew_lyr_2_2 minerl_1_1 minerl_1_2 = DecligResult.zero := by
  unfold declig
  rw [if_neg hm]

/-- Witness for C2, at the scenario of `test_declig_point`:
`aminrl_1 = 0, aminrl_2 = 0` with donating C/N ratio 200.0068 above the
required 190 (and C/P ratio 499.9206 above 300), so the mask is false
and all twelve deltas are exactly zero. -/
theorem declig_no_flow_witness :
    ¬ decompose_mask 0 0 (1555253/10000) (7776/10000) (3111/10000)
      190 300 ∧
    declig 0 0 (3779/10000) (146/10000) (883/10000) (1555253/10000)
      (2041/50) (7776/10000) (3111/10000) 190 300 0 0 0 0
      = DecligResult.zero := by
  have hm : ¬ decompose_mask 0 0 (1555253/10000) (7776/10000)
      (3111/10000) 190 300 := by
    unfold decompose_mask
    rintro ⟨h1, -⟩
    rcases h1 with h | h <;> norm_num at h
  exact ⟨hm,
    declig_no_flow_when_mask_fails 0 0 (3779/10000) (146/10000)
      (883/10000) (1555253/10000) (2041/50) (7776/10000) (3111/10000)
      190 300 0 0 0 0 hm⟩

/-- C1 (amended): under the totality precondition (`cflow, tca, anps,
rcetob > 0`), the three `_esched` outputs satisfy the conservation
equation `material_leaving_a == material_arriving_b + mineral_flow`
exactly (positive `mineral_flow` is element mineralized out of the
moving material, negative `mineral_flow` is element immobilized into
it); and when immobilization is required but the mineral pool cannot
supply it (`labile - immflo <= 0`), all three outputs are exactly
zero. -/
theorem esched_conservation (cflow tca rcetob anps labile : ℚ)
    (hc : 0 < cflow) (ht : 0 < tca) (ha : 0 < anps) (hr : 0 < rcetob) :
    (esched cflow tca rcetob anps labile).material_leaving_a =
      (esched cflow tca rcetob anps labile).material_arriving_b +
      (esched cflow tca rcetob anps labile).mineral_flow ∧
    (cflow / (anps * (cflow / tca)) > rcetob →
      labile - (cflow / rcetob - anps * (cflow / tca)) ≤ 0 →
      esched cflow tca rcetob anps labile = ⟨0, 0, 0⟩) := by
  simp only [esched]
  split_ifs with h1 h2
  · exact ⟨by ring, fun _ hg => absurd h2 (by linarith)⟩
  · exact ⟨by norm_num, fun _ _ => rfl⟩
  · exact ⟨by ring, fun himm _ => absurd himm h1⟩

/-- Witness for C1 at a concrete positive input. -/
theorem esched_conservation_witness :
    (0:ℚ) < 1 ∧
    (esched 1 2 3 4 5).material_leaving_a =
      (esched 1 2 3 4 5).material_arriving_b +
      (esched 1 2 3 4 5).mineral_flow :=
  ⟨by norm_num,
   (esched_conservation 1 2 3 4 5 (by norm_num) (by norm_num)
     (by norm_num) (by norm_num)).1⟩

/-- Counterexample for C1 as stated: at the spec's own immobilization
scenario (`cflow = 15.2006, tca = 155.5253, rcetob = 190.3,
anps = 0.7776, labile = 6.01`) decomposition occurs
(`material_leaving_a` is nonzero), yet
`material_leaving_a + mineral_flow` falls short of
`material_arriving_b` by more than 1/1000 — far beyond the 1e-8
tolerance the spec allows — because `mineral_flow` is negative during
immobilization, so the conserved form is
`material_leaving_a == material_arriving_b + mineral_flow`. -/
theorem esched_conservation_claim_counterexample :
    (esched (76003/5000) (1555253/10000) (1903/10) (486/625)
      (601/100)).material_leaving_a ≠ 0 ∧
    (esched (76003/5000) (1555253/10000) (1903/10) (486/625)
        (601/100)).material_arriving_b -
      ((esched (76003/5000) (1555253/10000) (1903/10) (486/625)
          (601/100)).material_leaving_a +
       (esched (76003/5000) (1555253/10000) (1903/10) (486/625)
          (601/100)).mineral_flow) > 1/1000 := by
  simp only [esched]
  norm_num

/-- C3: with positive potential production and positive C/element ratio
parameters, the returned carbon production is the minimum of the
water/temperature-limited `potenc` and the two carbon values implied by
available N and P (`eavail_iel / cpbe_iel`, with each `cpbe_iel`
blending minimum and maximum element/carbon ratios weighted by the
above- and belowground fractions derived from `rtsh`); the (capped)
total N in new production exceeds `eavail_1 + snfxmx_1 * c_production`
by no more than 0.05; and `plantNfix` is never negative. -/
theorem calc_nutrient_limitation_spec (potenc rtsh eavail_1 eavail_2
    snfxmx_1 cerat_max_above_1 cerat_max_below_1 cerat_max_above_2
    cerat_max_below_2 cerat_min_above_1 cerat_min_below_1
    cerat_min_above_2 cerat_min_below_2 : ℚ)
    (hp : 0 < potenc)
    (hma1 : 0 < cerat_max_above_1) (hmb1 : 0 < cerat_max_below_1)
    (hma2 : 0 < cerat_max_above_2) (hmb2 : 0 < cerat_max_below_2)
    (hia1 : 0 < cerat_min_above_1) (hib1 : 0 < cerat_min_below_1)
    (hia2 : 0 < cerat_min_above_2) (hib2 : 0 < cerat_min_below_2) :
    (calc_nutrient_limitation_point potenc rtsh eavail_1 eavail_2
      snfxmx_1 cerat_max_above_1 cerat_max_below_1 cerat_max_above_2
      cerat_max_below_2 cerat_min_above_1 cerat_min_below_1
      cerat_min_above_2 cerat_min_below_2).c_production =
      min potenc (min
        (eavail_1 / (calc_nutrient_limitation_point potenc rtsh eavail_1
          eavail_2 snfxmx_1 cerat_max_above_1 cerat_max_below_1
          cerat_max_above_2 cerat_max_below_2 cerat_min_above_1
          cerat_min_below_1 cerat_min_above_2 cerat_min_below_2).cpbe_1)
        (eavail_2 / (calc_nutrient_limitation_point potenc rtsh eavail_1
          eavail_2 snfxmx_1 cerat_max_above_1 cerat_max_below_1
          cerat_max_above_2 cerat_max_below_2 cerat_min_above_1
          cerat_min_below_1 cerat_min_above_2
          cerat_min_below_2).cpbe_2)) ∧
    (calc_nutrient_limitation_point potenc rtsh eavail_1 eavail_2
      snfxmx_1 cerat_max_above_1 cerat_max_below_1 cerat_max_above_2
      cerat_max_below_2 cerat_min_above_1 cerat_min_below_1
      cerat_min_above_2 cerat_min_below_2).eprodl_1 ≤
      eavail_1 + snfxmx_1 * (calc_nutrient_limitation_point potenc rtsh
        eavail_1 eavail_2 snfxmx_1 cerat_max_above_1 cerat_max_below_1
        cerat_max_above_2 cerat_max_below_2 cerat_min_above_1
        cerat_min_below_1 cerat_min_above_2
        cerat_min_below_2).c_production + 0.05 ∧
    0 ≤ (calc_nutrient_limitation_point potenc rtsh eavail_1 eavail_2
      snfxmx_1 cerat_max_above_1 cerat_max_below_1 cerat_max_above_2
      cerat_max_below_2 cerat_min_above_1 cerat_min_below_1
      cerat_min_above_2 cerat_min_below_2).plantNfix := by
  simp only [calc_nutrient_limitation_point]
  refine ⟨by rw [min_assoc], ?_, le_max_right _ _⟩
  split_ifs <;> linarith

/-- Witness for C3 at a concrete positive input. -/
theorem calc_nutrient_limitation_spec_witness :
    (0:ℚ) < 1 ∧
    0 ≤ (calc_nutrient_limitation_point 1 1 1 1 0 1 1 1 1 1 1 1
      1).plantNfix :=
  ⟨by norm_num,
   (calc_nutrient_limitation_spec 1 1 1 1 0 1 1 1 1 1 1 1 1
     (by norm_num) (by norm_num) (by norm_num) (by norm_num)
     (by norm_num) (by norm_num) (by norm_num) (by norm_num)
     (by norm_num)).2.2⟩

/-- C8: `routedem.execute` on an `algorithm` whose upper-casing is
neither `D8` nor `MFD` fails with the enumerated `RuntimeError` message
naming the invalid algorithm, before any routing task is scheduled; on
`D8` or `MFD` in any letter case no such error is raised. -/
theorem routedem_execute_algorithm_check (algorithm : String) :
    (upperString algorithm ≠ "D8" → upperString algorithm ≠ "MFD" →
      ∀ s fa st dd, routedem_execute algorithm s fa st dd =
        { scheduled := []
          error := some ("Invalid algorithm specified (" ++ algorithm ++
            "). Must be one of D8, MFD") }) ∧
    ((upperString algorithm = "D8" ∨ upperString algorithm = "MFD") →
      ∀ s fa st dd,
        (routedem_execute algorithm s fa st dd).error = none) := by
  constructor
  · intro h1 h2 s fa st dd
    simp [routedem_execute, routingAlgorithms, h1, h2]
  · rintro (h | h) s fa st dd <;>
      simp [routedem_execute, routingAlgorithms, List.contains, h]

/-- Witness for C8: `q9` is rejected before scheduling with the
enumerated message, while lower-case `mfd` is accepted. -/
theorem routedem_execute_algorithm_check_witness :
    routedem_execute "q9" true true true true =
      { scheduled := []
        error := some
          "Invalid algorithm specified (q9). Must be one of D8, MFD" } ∧
    (routedem_execute "mfd" true true true true).error = none :=
  ⟨(routedem_execute_algorithm_check "q9").1 (by decide) (by decide)
     true true true true,
   (routedem_execute_algorithm_check "mfd").2 (Or.inr (by decide))
     true true true true⟩

/-- C7: in the potential-transpiration phase, average temperature below
2 degrees C makes the transpiration demand curve zero (so the capped
demand collapses to the 0.01 floor and no surface moisture is
consumed); and in general the demand is pre-satisfied from the current
surface moisture input by `min(demand - 0.01, current_moisture_inputs)`,
subtracted from both the demand and the surface input. -/
theorem potential_transpiration_cold_and_presatisfaction (pet_rem
    evap_losses tave aliv current_moisture_inputs : ℝ)
    (h1 : tave < 2) (h2 : 0 ≤ current_moisture_inputs) :
    pttr_curve pet_rem tave aliv = 0 ∧
    (potential_transpiration_point pet_rem evap_losses tave aliv
      current_moisture_inputs).trap = 0.01 ∧
    (potential_transpiration_point pet_rem evap_losses tave aliv
      current_moisture_inputs).modified_moisture_inputs
      = current_moisture_inputs ∧
    ∀ p e t a c : ℝ,
      (potential_transpiration_point p e t a c).trap =
        capped_trap p e t a - min (capped_trap p e t a - 0.01) c ∧
      (potential_transpiration_point p e t a c).modified_moisture_inputs
        = c - min (capped_trap p e t a - 0.01) c := by
  have hp : pttr_curve pet_rem tave aliv = 0 := by
    unfold pttr_curve
    exact if_pos h1
  have hct : capped_trap pet_rem evap_losses tave aliv = 0.01 := by
    unfold capped_trap
    rw [hp]
    dsimp only
    split_ifs with ha hb hb
    · rfl
    · exact absurd (le_refl (0:ℝ)) hb
    · rfl
    · exact absurd (le_of_lt (lt_of_not_le ha)) hb
  refine ⟨hp, ?_, ?_, fun p e t a c => ⟨rfl, rfl⟩⟩
  · show capped_trap pet_rem evap_losses tave aliv -
      min (capped_trap pet_rem evap_losses tave aliv - 0.01)
        current_moisture_inputs = 0.01
    rw [hct]
    norm_num [min_eq_left h2]
  · show current_moisture_inputs -
      min (capped_trap pet_rem evap_losses tave aliv - 0.01)
        current_moisture_inputs = current_moisture_inputs
    rw [hct]
    norm_num [min_eq_left h2]

/-- Witness for C7 at the known values of
`test_calc_potential_transpiration` with the temperature below 2. -/
theorem potential_transpiration_cold_witness :
    (1:ℝ) < 2 ∧
    (potential_transpiration_point 13.2 5.28 1 100 7.4).trap = 0.01 :=
  ⟨by norm_num,
   (potential_transpiration_cold_and_presatisfaction 13.2 5.28 1 100 7.4
     (by norm_num) (by norm_num)).2.1⟩

/-- Helper: the moisture factor `agwfunc` lies in `[0, 1]` for every
`rprpet`. -/
theorem agwfunc_mem_unit_interval (rprpet : ℝ) :
    0 ≤ agwfunc rprpet ∧ agwfunc rprpet ≤ 1 := by
  unfold agwfunc
  split_ifs with h
  · norm_num
  · have he : 0 < Real.exp (-8.5 * rprpet) := Real.exp_pos _
    have hd : (1:ℝ) ≤ 1 + 30 * Real.exp (-8.5 * rprpet) := by linarith
    constructor
    · positivity
    · rw [div_le_one (by linarith)]
      exact hd

/-- C5 (amended): for positive temperature-response parameters
`teff_3, teff_4`, a positive normalization denominator (the temperature
response evaluated at 30 degrees), and effective soil temperature at
most 30 degrees (always the case under standing snow), the
decomposition factor `defac_point` lies in the closed interval
`[0, 1]`.  The lower bound holds unconditionally, but the upper bound
genuinely needs soil temperature at most 30 degrees: `defac_point`
normalizes the temperature response by its value at 30 degrees, so a
hotter month with ample moisture yields `defac > 1`. -/
theorem defac_point_bounded (snow min_temp max_temp rprpet teff_1 teff_2
    teff_3 teff_4 : ℝ)
    (h3 : 0 < teff_3) (h4 : 0 < teff_4)
    (hden : 0 < tfunc_num 30 teff_1 teff_2 teff_3 teff_4)
    (hst : soil_stemp snow min_temp max_temp ≤ 30) :
    0 ≤ defac_point snow min_temp max_temp rprpet teff_1 teff_2 teff_3
      teff_4 ∧
    defac_point snow min_temp max_temp rprpet teff_1 teff_2 teff_3
      teff_4 ≤ 1 := by
  obtain ⟨hagw0, hagw1⟩ := agwfunc_mem_unit_interval rprpet
  have hnum_le : tfunc_num (soil_stemp snow min_temp max_temp) teff_1
      teff_2 teff_3 teff_4 ≤ tfunc_num 30 teff_1 teff_2 teff_3 teff_4 := by
    unfold tfunc_num
    have hmul : 0 ≤ Real.pi * teff_4 :=
      le_of_lt (mul_pos Real.pi_pos h4)
    have harg : Real.pi * teff_4 *
        (soil_stemp snow min_temp max_temp - teff_1) ≤
        Real.pi * teff_4 * (30 - teff_1) :=
      mul_le_mul_of_nonneg_left (sub_le_sub_right hst teff_1) hmul
    have harc := Real.arctan_strictMono.monotone harg
    have hcoef : 0 ≤ teff_3 / Real.pi :=
      le_of_lt (div_pos h3 Real.pi_pos)
    have := mul_le_mul_of_nonneg_left harc hcoef
    linarith
  have hratio : tfunc_num (soil_stemp snow min_temp max_temp) teff_1
      teff_2 teff_3 teff_4 / tfunc_num 30 teff_1 teff_2 teff_3 teff_4
      ≤ 1 := (div_le_one hden).mpr hnum_le
  have htf1 : max 0.01 (tfunc_num (soil_stemp snow min_temp max_temp)
      teff_1 teff_2 teff_3 teff_4 /
      tfunc_num 30 teff_1 teff_2 teff_3 teff_4) ≤ 1 :=
    max_le (by norm_num) hratio
  have htf0 : (0:ℝ) ≤ max 0.01 (tfunc_num (soil_stemp snow min_temp
      max_temp) teff_1 teff_2 teff_3 teff_4 /
      tfunc_num 30 teff_1 teff_2 teff_3 teff_4) :=
    le_trans (by norm_num) (le_max_left _ _)
  constructor
  · exact le_max_left 0 _
  · show max 0 (max 0.01 (tfunc_num (soil_stemp snow min_temp max_temp)
      teff_1 teff_2 teff_3 teff_4 /
      tfunc_num 30 teff_1 teff_2 teff_3 teff_4) * agwfunc rprpet) ≤ 1
    exact max_le zero_le_one (mul_le_one₀ htf1 hagw0 hagw1)

/-- Witness for C5: under standing snow (`snow = 1`, so soil
temperature is 0) and `teff_1 = 30` (so the normalization denominator
is exactly `teff_2 = 12`), `defac_point` lies in `[0, 1]`. -/
theorem defac_point_bounded_witness :
    0 ≤ defac_point 1 5 10 3 30 12 1 1 ∧
    defac_point 1 5 10 3 30 12 1 1 ≤ 1 := by
  have hden : tfunc_num 30 30 12 1 1 = 12 := by
    unfold tfunc_num
    norm_num [Real.arctan_zero]
  have hst : soil_stemp 1 5 10 = 0 := by
    unfold soil_stemp
    norm_num
  exact defac_point_bounded 1 5 10 3 30 12 1 1 (by norm_num)
    (by norm_num) (by rw [hden]; norm_num) (by rw [hst]; norm_num)

/-- Counterexample for C5 as stated: at a physically plausible input —
no snow, a hot month (`min_temp = 36, max_temp = 44`, soil temperature
40 degrees), ample moisture (`rprpet = 10 > 9`), and CENTURY-style
temperature parameters `teff_1 = 30, teff_2 = 11.75, teff_3 = 29.7,
teff_4 = 0.031` — the decomposition factor exceeds 1, because the
temperature response is normalized by its value at 30 degrees and soil
temperature is above 30. -/
theorem defac_point_exceeds_one :
    1 < defac_point 0 36 44 10 30 (47/4) (297/10) (31/1000) := by
  have hst : soil_stemp 0 36 44 = 40 := by
    unfold soil_stemp
    norm_num
  have hden : tfunc_num 30 30 (47/4) (297/10) (31/1000) = 47/4 := by
    unfold tfunc_num
    norm_num [Real.arctan_zero]
  have harct : 0 < Real.arctan (Real.pi * (31/1000) * (40 - 30)) := by
    have harg : (0:ℝ) < Real.pi * (31/1000) * (40 - 30) := by
      have := Real.pi_pos
      nlinarith
    have := Real.arctan_strictMono harg
    rwa [Real.arctan_zero] at this
  have hnum : (47/4 : ℝ) < tfunc_num 40 30 (47/4) (297/10) (31/1000) := by
    unfold tfunc_num
    have hcoef : (0:ℝ) < (297/10) / Real.pi :=
      div_pos (by norm_num) Real.pi_pos
    nlinarith [mul_pos hcoef harct]
  have hagw : agwfunc 10 = 1 := by
    unfold agwfunc
    norm_num
  have hratio : (1:ℝ) < tfunc_num 40 30 (47/4) (297/10) (31/1000)
      / (47/4) := by
    rw [lt_div_iff₀ (by norm_num : (0:ℝ) < 47/4)]
    linarith
  show 1 < defac_point 0 36 44 10 30 (47/4) (297/10) (31/1000)
  unfold defac_point
  rw [hst, hden, hagw]
  dsimp only
  rw [mul_one]
  calc (1:ℝ) < tfunc_num 40 30 (47/4) (297/10) (31/1000) / (47/4) :=
        hratio
    _ ≤ max 0.01 (tfunc_num 40 30 (47/4) (297/10) (31/1000) / (47/4)) :=
        le_max_right _ _
    _ ≤ max 0 (max 0.01
          (tfunc_num 40 30 (47/4) (297/10) (31/1000) / (47/4))) :=
        le_max_right _ _
